import Mathlib

/-
Verification of the Hardware I/O Abstraction Layer of CommandStation-EX
(device registry/dispatcher, PCF8574/MCP23017 port-expander drivers, and
the Analogue servo animation engine) against its natural-language design
specification.

Shallow embedding conventions:
* VPINs and times are Nat; the 32-bit unsigned microsecond clock arithmetic
  of the source is modelled by explicit subtraction mod 2^32 (usub32).
* C++ int values carried through handlers are Int; C truthiness `if (v)`
  is modelled as `v ≠ 0`.
* Per-module arrays (uint8_t[8]) are modelled as total functions Nat → Nat;
  the source performs no bounds checks, and neither does the model.
* Arduino `map()` computes in `long` with C++ division truncating toward
  zero; it is modelled with Int.tdiv.
* Bus transactions: a read transaction is represented by the pair
  (number of bytes the transaction returned, content of the caller's
  one-byte buffer after the call).  When the transaction fails (first
  component ≠ 1) the buffer content is whatever residue the stack held,
  which the model leaves as an arbitrary supplied value.
-/

namespace HAL

/-- Device record for the registry/dispatcher of IODevice.cpp.  `firstID` and
`nPins` are the common object fields of class IODevice; the virtual methods
`_write`, `_read`, `_configure` are carried as function fields over a
device-specific state type `σ`, and `_isDeletable` as the Bool `deletable`.
The singly linked chain `_firstDevice → _nextDevice → …` is a `List (Device σ)`. -/
structure Device (σ : Type) where
  firstID : Nat
  nPins : Nat
  st : σ
  writeFn : σ → Nat → Int → σ
  readFn : σ → Nat → Bool
  configFn : σ → Nat → List Int → Bool × σ
  deletable : Bool

/-- Ownership test of IODevice::owns (IODevice.cpp:201-203):
`id >= _firstID && id < _firstID + _nPins`. -/
def Device.owns {σ : Type} (d : Device σ) (p : Nat) : Bool :=
  decide (d.firstID ≤ p) && decide (p < d.firstID + d.nPins)

namespace IODevice

/-- Dispatcher read, IODevice::read (IODevice.cpp:223-232): scan the chain
from the head; the first owning device handles the call; return false when
no device owns the pin. -/
def read {σ : Type} : List (Device σ) → Nat → Bool
  | [], _ => false
  | d :: rest, p => if d.owns p then d.readFn d.st p else read rest p

/-- Dispatcher write, IODevice::write (IODevice.cpp:172-182): the first
owning device's `_write` runs (its state is replaced); an unmatched pin is a
silent no-op. -/
def write {σ : Type} : List (Device σ) → Nat → Int → List (Device σ)
  | [], _, _ => []
  | d :: rest, p, v =>
    if d.owns p then { d with st := d.writeFn d.st p v } :: rest
    else d :: write rest p v

/-- Dispatcher existence test, IODevice::exists (IODevice.cpp:121-126). -/
def existsPin {σ : Type} : List (Device σ) → Nat → Bool
  | [], _ => false
  | d :: rest, p => d.owns p || existsPin rest p

/-- Dispatcher configure, IODevice::configure (IODevice.cpp:160-168): the
first owning device's `_configure` runs and its Bool result is returned;
false when no device owns the pin. -/
def configure {σ : Type} : List (Device σ) → Nat → List Int → Bool × List (Device σ)
  | [], _, _ => (false, [])
  | d :: rest, p, ps =>
    if d.owns p then
      let r := d.configFn d.st p ps
      (r.1, { d with st := r.2 } :: rest)
    else
      let r := configure rest p ps
      (r.1, d :: r.2)

/-- Device removal, IODevice::remove (IODevice.cpp:131-152).  The loop keeps
scanning past an owning device whose `_isDeletable()` is false (only
`previousDev` is advanced); the first device that both owns the pin and is
deletable is unlinked and destroyed, and the function returns. -/
def remove {σ : Type} : List (Device σ) → Nat → List (Device σ)
  | [], _ => []
  | d :: rest, p =>
    if d.owns p && d.deletable then rest else d :: remove rest p

/-- Chain insertion, IODevice::addDevice (IODevice.cpp:185-193): the new
device is linked at the chain head (then its `_begin` initialisation hook
runs; initialisation effects are part of the device's initial `st`). -/
def addDevice {σ : Type} (d : Device σ) (chain : List (Device σ)) : List (Device σ) :=
  d :: chain

end IODevice

/-- Unsigned 32-bit subtraction `a - b` as performed on `unsigned long`
microsecond clock values in the source. -/
def usub32 (a b : Nat) : Nat :=
  (a % 4294967296 + 4294967296 - b % 4294967296) % 4294967296

namespace PCF8574

/-- Interval between ticks when counters are updated
(IODevice.h:224, `_portTickTime = 500`). -/
def portTickTime : Nat := 500

/-- Number of ticks to elapse before cached port values expire
(IODevice.h:226, `_minTicksBetweenPortReads = 2`). -/
def minTicksBetweenPortReads : Nat := 2

/-- Maximum number of PCF8574 modules supported (IODevice.h:217). -/
def maxModules : Nat := 8

end PCF8574

/-- State of a PCF8574 device instance as declared in IODevice.h:196-228 and
used by IO_PCF8574.cpp: per-module output shadow, input shadow and freshness
counter arrays, the any-counter-nonzero flag, and the loop timestamp. -/
structure PCF8574State where
  firstID : Nat
  nPins : Nat
  nModules : Nat
  I2CAddress : Nat
  portInputState : Nat → Nat
  portOutputState : Nat → Nat
  portCounter : Nat → Nat
  counterSet : Bool
  lastLoopEntry : Nat

namespace PCF8574

/-- Clamping constructor, PCF8574::createInstance (IO_PCF8574.cpp:30-42):
`_nPins = min(nPins, 8*8)` and `_nModules = (_nPins + 7) / 8` computed from
the clamped pin count.  Arrays are as `_begin` (IO_PCF8574.cpp:53-65) leaves
them for the modules in use: input 0, output 0, counter 0 (entries beyond
`_nModules` are never initialised by the source; the model uses 0). -/
def createInstance (vpin : Nat) (nPins : Nat) (I2CAddress : Nat) : PCF8574State :=
  let n := min nPins (8 * 8)
  { firstID := vpin
    nPins := n
    nModules := (n + 7) / 8
    I2CAddress := I2CAddress
    portInputState := fun _ => 0
    portOutputState := fun _ => 0
    portCounter := fun _ => 0
    counterSet := false
    lastLoopEntry := 0 }

/-- Device write, PCF8574::_write (IO_PCF8574.cpp:68-84): set or clear the
pin's bit in the module's output shadow, issue the one-byte bus write of the
shadow, and reset the module's freshness counter to 0 so the next read
refreshes the cache.  (`&= ~mask` on the uint8_t shadow is `land` with the
8-bit complement `255 - mask`.) -/
def write (s : PCF8574State) (vpin : Nat) (value : Int) : PCF8574State :=
  let pin := vpin - s.firstID
  let deviceIndex := pin / 8
  let bit := pin % 8
  let mask := 2 ^ bit
  let out :=
    if value ≠ 0 then Nat.lor (s.portOutputState deviceIndex) mask
    else Nat.land (s.portOutputState deviceIndex) (255 - mask)
  { s with
    portOutputState := Function.update s.portOutputState deviceIndex out
    portCounter := Function.update s.portCounter deviceIndex 0 }

/-- Device read, PCF8574::_read (IO_PCF8574.cpp:92-124).  `bus` is the result
of the one-byte bus read transaction: (number of bytes returned, content of
`inBuffer` after the call).  If the pin's output shadow bit is driven low the
bit is first raised (this queues a one-byte bus write and resets the counter);
a bus read transaction is performed when that happened or when the counter is
0, storing the buffer into the input shadow — the source discards the byte
count, so the buffer content is stored even when the transaction returned
fewer bytes than requested — and the counter is set to
`minTicksBetweenPortReads` with the `_counterSet` flag raised.  Returns
(new state, pin bit of the input shadow, whether a bus read was performed). -/
def read (s : PCF8574State) (vpin : Nat) (bus : Nat × Nat) : PCF8574State × Bool × Bool :=
  let pin := vpin - s.firstID
  let deviceIndex := pin / 8
  let bit := pin % 8
  let mask := 2 ^ bit
  let forceWrite := Nat.land (s.portOutputState deviceIndex) mask = 0
  let s1 :=
    if forceWrite then
      { s with
        portOutputState :=
          Function.update s.portOutputState deviceIndex
            (Nat.lor (s.portOutputState deviceIndex) mask)
        portCounter := Function.update s.portCounter deviceIndex 0 }
    else s
  if forceWrite ∨ s1.portCounter deviceIndex = 0 then
    let s2 :=
      { s1 with
        portInputState := Function.update s1.portInputState deviceIndex bus.2
        portCounter := Function.update s1.portCounter deviceIndex minTicksBetweenPortReads
        counterSet := true }
    (s2, decide (Nat.land (s2.portInputState deviceIndex) mask ≠ 0), true)
  else
    (s1, decide (Nat.land (s1.portInputState deviceIndex) mask ≠ 0), false)

/-- Tick handler, PCF8574::_loop (IO_PCF8574.cpp:129-150): when strictly more
than `_portTickTime` microseconds (unsigned arithmetic) have elapsed since
`_lastLoopEntry`, and the `_counterSet` flag is up, every module counter is
decremented by the number of elapsed whole tick intervals, clamped at 0, and
the flag is recomputed; `_lastLoopEntry` then advances whether or not the
flag was up. -/
def loop (s : PCF8574State) (currentMicros : Nat) : PCF8574State :=
  if usub32 currentMicros s.lastLoopEntry > portTickTime then
    if s.counterSet then
      let elapsedTicks := usub32 currentMicros s.lastLoopEntry / portTickTime
      let counters := fun i =>
        if i < s.nModules then
          (if s.portCounter i > elapsedTicks then s.portCounter i - elapsedTicks else 0)
        else s.portCounter i
      let cset := (List.range s.nModules).any (fun i => decide (0 < counters i))
      { s with portCounter := counters, counterSet := cset, lastLoopEntry := currentMicros }
    else { s with lastLoopEntry := currentMicros }
  else s

end PCF8574

/-- State of the second PCF8574 driver variant found in the repository
(src/unnamed/part_000, lines 30-47): same shadow/counter layout, with the
three per-module arrays calloc-allocated (hence zero-initialised) and no
`_counterSet` flag. -/
structure PCF8574v2State where
  firstVpin : Nat
  nPins : Nat
  nModules : Nat
  I2CAddress : Nat
  portInputState : Nat → Nat
  portOutputState : Nat → Nat
  portCounter : Nat → Nat
  lastLoopEntry : Nat

namespace PCF8574v2

/-- Device read of the second variant, PCF8574::_read
(src/unnamed/part_000:105-139).  Identical to the named variant except that
the byte count returned by the bus transaction is checked: the input shadow
is set from the buffer only when exactly 1 byte was returned, and set to 0 on
error (`_portInputState[deviceIndex] = 0;  // Return zero if error.`). -/
def read (s : PCF8574v2State) (vpin : Nat) (bus : Nat × Nat) : PCF8574v2State × Bool × Bool :=
  let pin := vpin - s.firstVpin
  let deviceIndex := pin / 8
  let bit := pin % 8
  let mask := 2 ^ bit
  let forceWrite := Nat.land (s.portOutputState deviceIndex) mask = 0
  let s1 :=
    if forceWrite then
      { s with
        portOutputState :=
          Function.update s.portOutputState deviceIndex
            (Nat.lor (s.portOutputState deviceIndex) mask)
        portCounter := Function.update s.portCounter deviceIndex 0 }
    else s
  if forceWrite ∨ s1.portCounter deviceIndex = 0 then
    let stored := if bus.1 = 1 then bus.2 else 0
    let s2 :=
      { s1 with
        portInputState := Function.update s1.portInputState deviceIndex stored
        portCounter := Function.update s1.portCounter deviceIndex PCF8574.minTicksBetweenPortReads }
    (s2, decide (Nat.land (s2.portInputState deviceIndex) mask ≠ 0), true)
  else
    (s1, decide (Nat.land (s1.portInputState deviceIndex) mask ≠ 0), false)

end PCF8574v2

/-- Stored pin/module configuration produced by MCP23017::createInstance. -/
structure MCP23017Cfg where
  firstID : Nat
  nPins : Nat
  nModules : Nat
  I2CAddress : Nat

namespace MCP23017

/-- Maximum number of MCP23017 modules supported (IODevice.h:258,
`_maxModules = 8`); the six per-module state arrays all have this size. -/
def maxModules : Nat := 8

/-- Constructor, MCP23017::createInstance (IO_MCP23017.cpp:27-35):
`_nPins = min(nPins, 16*8)` but `_nModules = (nPins+15)/16` computed from the
unclamped `nPins` parameter. -/
def createInstance (firstID : Nat) (nPins : Nat) (I2CAddress : Nat) : MCP23017Cfg :=
  { firstID := firstID
    nPins := min nPins (16 * 8)
    nModules := (nPins + 15) / 16
    I2CAddress := I2CAddress }

end MCP23017

/-- Servo motion profile, the ProfileType enumeration used by
IO_AnalogueDevice.cpp (Instant/Fast/Medium/Slow/Bounce).  Modelled from the
spec where the declaring header IO_AnalogueDevice.h is not among the sources. -/
inductive ProfileType where
  | Instant
  | Fast
  | Medium
  | Slow
  | Bounce
deriving DecidableEq, Repr

/-- Numeric decoding of a profile parameter, modelling the C enum cast
`(ProfileType)params[3]`.  Modelled from the spec: the numeric enum values
are declared in the missing header; out-of-range values fall back to Instant
(the `_write` switch treats unknown profiles as Fast when animating). -/
def ProfileType.ofInt (v : Int) : ProfileType :=
  if v = 0 then .Instant
  else if v = 1 then .Fast
  else if v = 2 then .Medium
  else if v = 3 then .Slow
  else if v = 4 then .Bounce
  else .Instant

/-- Animation state per Analogue device as used by IO_AnalogueDevice.cpp.
Field declarations live in IO_AnalogueDevice.h, absent from the sources, so
the field set is modelled from the spec's Animation state (§3): positions as
mathematical integers (the source computes them with Arduino `map()` in
`long`), `state` is the logical boolean target with -1 for "unknown before
first write".  The `_lastRefreshTime`/`millis()` bookkeeping that merely
rate-limits `_loop` is not part of this state: one call of `updatePosition`
models one elapsed refresh tick. -/
structure AnalogueState where
  devicePin : Nat
  activePosition : Int
  inactivePosition : Int
  currentPosition : Int
  fromPosition : Int
  toPosition : Int
  profile : ProfileType
  numSteps : Nat
  stepNumber : Nat
  state : Int
deriving DecidableEq, Repr

/-- Arduino map() as used by Analogue::updatePosition:
`(x - in_min) * (out_max - out_min) / (in_max - in_min) + out_min` computed
in `long`, with C++ division truncating toward zero (Int.tdiv). -/
def arduinoMap (x inMin inMax outMin outMax : Int) : Int :=
  Int.tdiv ((x - inMin) * (outMax - outMin)) (inMax - inMin) + outMin

namespace Analogue

/-- Bounce profile percentage table (IO_AnalogueDevice.cpp:182-183),
30 entries; `sizeof(profile)` = 30. -/
def profileTable : List Int :=
  [2, 3, 7, 13, 33, 50, 83, 100, 83, 75, 70, 65, 60, 60, 65, 74, 84, 100,
   83, 75, 70, 70, 72, 75, 80, 87, 92, 97, 100, 100]

/-- One animation tick, Analogue::updatePosition (IO_AnalogueDevice.cpp:135-172).
`catchupSteps` is the class constant `_catchupSteps` declared in the missing
header (modelled from the spec: "a configurable number of extra catch-up
ticks"), kept as an explicit parameter.  Returns the new state and the list
of values written downstream to `_devicePin` during this tick. -/
def updatePosition (catchupSteps : Nat) (s : AnalogueState) : AnalogueState × List Int :=
  if s.stepNumber > s.numSteps + catchupSteps then (s, [])
  else
    let step :=
      match s.profile with
      | ProfileType.Bounce =>
        if s.stepNumber < s.numSteps then
          let profileValue := profileTable.getD s.stepNumber 0
          ({ s with
              currentPosition := arduinoMap profileValue 0 100 s.fromPosition s.toPosition
              stepNumber := s.stepNumber + 1 }, true)
        else (s, false)
      | _ =>
        if s.stepNumber < s.numSteps then
          ({ s with
              stepNumber := s.stepNumber + 1
              currentPosition :=
                arduinoMap ((s.stepNumber : Int) + 1) 0 (s.numSteps : Int)
                  s.fromPosition s.toPosition }, true)
        else (s, false)
    let s1 := step.1
    if step.2 then (s1, [s1.currentPosition])
    else if s1.stepNumber < s1.numSteps + catchupSteps then
      ({ s1 with stepNumber := s1.stepNumber + 1 }, [])
    else if s1.stepNumber = s1.numSteps + catchupSteps ∧
            s1.currentPosition ≠ 4095 ∧ s1.currentPosition ≠ 0 then
      ({ s1 with stepNumber := s1.stepNumber + 1 }, [0])
    else (s1, [])

/-- Device write, Analogue::_write (IO_AnalogueDevice.cpp:81-126).
`if (value) value = 1;` then: with `_state == -1` (unknown) the position is
set straight to `_state ? _activePosition : _inactivePosition` — evaluated
while `_state` is still -1 — the logical state is recorded and one
`updatePosition` runs; writing the current logical state again is a no-op;
otherwise a transition starts: `_numSteps` from the profile, `_stepNumber = 0`,
`_fromPosition = _currentPosition`, `_toPosition` the new extreme, and one
`updatePosition` runs synchronously.  Returns the new state and the values
written downstream during the call. -/
def write (catchupSteps : Nat) (s : AnalogueState) (value : Int) : AnalogueState × List Int :=
  let value : Int := if value ≠ 0 then 1 else 0
  if s.state = -1 then
    let pos := if s.state ≠ 0 then s.activePosition else s.inactivePosition
    updatePosition catchupSteps
      { s with fromPosition := pos, toPosition := pos, currentPosition := pos, state := value }
  else if s.state = value then (s, [])
  else
    let n : Nat :=
      match s.profile with
      | ProfileType.Instant => 1
      | ProfileType.Fast => 10
      | ProfileType.Medium => 20
      | ProfileType.Slow => 40
      | ProfileType.Bounce => 30
    updatePosition catchupSteps
      { s with
          numSteps := n
          state := value
          stepNumber := 0
          fromPosition := s.currentPosition
          toPosition := if value ≠ 0 then s.activePosition else s.inactivePosition }

/-- Iterated animation ticks: `run catchupSteps s n` performs `n` successive
`updatePosition` calls (one per elapsed refresh interval of `_loop`),
concatenating the downstream writes. -/
def run (catchupSteps : Nat) (s : AnalogueState) : Nat → AnalogueState × List Int
  | 0 => (s, [])
  | n + 1 =>
    let r1 := updatePosition catchupSteps s
    let r2 := run catchupSteps r1.1 n
    (r2.1, r1.2 ++ r2.2)

/-- Initial animation state set by Analogue::createInstance
(IO_AnalogueDevice.cpp:27-36): `_numSteps = _stepNumber = 0`, `_state = -1`
(unknown).  The remaining fields are not assigned by the constructor
(they are set later by `_configure`); the model gives them inert defaults. -/
def initialState : AnalogueState :=
  { devicePin := 0
    activePosition := 0
    inactivePosition := 0
    currentPosition := 0
    fromPosition := 0
    toPosition := 0
    profile := ProfileType.Instant
    numSteps := 0
    stepNumber := 0
    state := -1 }

/-- Parameterised configure, Analogue::_configure (IO_AnalogueDevice.cpp:47-79):
fails unless exactly 4 params (devicePin, activePosition, inactivePosition,
profile); otherwise stores them, sets `_currentPosition` from the truthiness
of `_state`, and zeroes `_stepNumber`/`_numSteps`.  The downstream write of
the current position it performs is outside the device state. -/
def configureDev (s : AnalogueState) (params : List Int) : Bool × AnalogueState :=
  if params.length ≠ 4 then (false, s)
  else
    let s1 :=
      { s with
          devicePin := (params.getD 0 0).toNat
          activePosition := params.getD 1 0
          inactivePosition := params.getD 2 0
          currentPosition := if s.state ≠ 0 then params.getD 1 0 else params.getD 2 0
          profile := ProfileType.ofInt (params.getD 3 0)
          stepNumber := 0
          numSteps := 0 }
    (true, s1)

/-- The Analogue device as a registry entry: one VPIN (`_nPins = 1`),
deletable (Analogue::_isDeletable returns true, IO_AnalogueDevice.cpp:174-176),
`_read` not overridden (base default returns 0/false), handlers lifted from
the state functions (downstream writes they emit are not part of the chain
state). -/
def device (catchupSteps : Nat) (vpin : Nat) : Device AnalogueState :=
  { firstID := vpin
    nPins := 1
    st := initialState
    writeFn := fun s _ v => (write catchupSteps s v).1
    readFn := fun _ _ => false
    configFn := fun s _ ps => configureDev s ps
    deletable := true }

/-- Device creation, Analogue::createInstance (IO_AnalogueDevice.cpp:27-36):
`IODevice::remove(vpin)` runs first ("Delete any existing device that may
conflict"), then the new device is allocated and linked at the chain head. -/
def createInstance (catchupSteps : Nat) (chain : List (Device AnalogueState)) (vpin : Nat) :
    List (Device AnalogueState) :=
  IODevice.addDevice (device catchupSteps vpin) (IODevice.remove chain vpin)

end Analogue

/-! Concrete device instances used as witness/counterexample inputs. -/

/-- Witness device with trivial Unit state. -/
def unitDevice (firstID nPins : Nat) (del : Bool) : Device Unit :=
  { firstID := firstID
    nPins := nPins
    st := ()
    writeFn := fun s _ _ => s
    readFn := fun _ _ => false
    configFn := fun s _ _ => (true, s)
    deletable := del }

/-- Witness device with Nat state whose handlers visibly depend on the call. -/
def natDevice (firstID nPins tag : Nat) (del : Bool) : Device Nat :=
  { firstID := firstID
    nPins := nPins
    st := tag
    writeFn := fun s p v => s + p + v.natAbs + 1
    readFn := fun s _ => decide (s % 2 = 0)
    configFn := fun s p ps => (decide (ps ≠ []), s + p)
    deletable := del }

/-- Witness base device over the AnalogueState chain (a permanent,
non-deletable entry such as the ArduinoPins driver). -/
def baseAnalogueChainDevice : Device AnalogueState :=
  { firstID := 0
    nPins := 50
    st := Analogue.initialState
    writeFn := fun s _ _ => s
    readFn := fun _ _ => false
    configFn := fun s _ _ => (true, s)
    deletable := false }

/-- Witness PCF8574 state: 4 modules, all outputs driven high, input shadow
0x55, all counters fresh at 2 with the flag up. -/
def pcfFresh : PCF8574State :=
  { firstID := 132
    nPins := 32
    nModules := 4
    I2CAddress := 32
    portInputState := fun _ => 85
    portOutputState := fun _ => 255
    portCounter := fun _ => 2
    counterSet := true
    lastLoopEntry := 0 }

/-- Witness PCF8574 state with expired counters (cache stale). -/
def pcfStale : PCF8574State :=
  { pcfFresh with portCounter := fun _ => 0, counterSet := false }

/-- Witness state for the second driver variant, cache stale. -/
def pcfV2Stale : PCF8574v2State :=
  { firstVpin := 132
    nPins := 32
    nModules := 4
    I2CAddress := 32
    portInputState := fun _ => 85
    portOutputState := fun _ => 255
    portCounter := fun _ => 0
    lastLoopEntry := 0 }

/-- Analogue device state as the late-binding factory path leaves it: created
with unknown state (-1) then configured with devicePin 101, activePosition
300, inactivePosition 100, Fast profile — no write has happened yet. -/
def analogueUnknown : AnalogueState :=
  (Analogue.configureDev Analogue.initialState [101, 300, 100, 1]).2

/-- Position reached at step k of a 10-step (Fast profile) linear animation
from f to t: `map(k, 0, numSteps, fromPosition, toPosition)` with
numSteps = 10. -/
def fastPos (f t : Int) (k : Nat) : Int :=
  arduinoMap (k : Int) 0 10 f t

/-- Settled Fast-profile Analogue device whose extremes are only 5 apart
(activePosition 5, inactivePosition 0), logical state inactive. -/
def analogueSettledSmall : AnalogueState :=
  { devicePin := 101
    activePosition := 5
    inactivePosition := 0
    currentPosition := 0
    fromPosition := 0
    toPosition := 0
    profile := ProfileType.Fast
    numSteps := 10
    stepNumber := 16
    state := 0 }

/-- Settled Fast-profile Analogue device with a wide, non-boundary range
(activePosition 2047, inactivePosition 0), logical state inactive. -/
def analogueSettledWide : AnalogueState :=
  { analogueSettledSmall with activePosition := 2047 }

/-! ## Theorems -/

/-- Helper: removing a pin from a chain holding at most one removable owner
of that pin leaves no removable owner of the pin. -/
theorem remove_countP_owner {σ : Type} (p : Nat) :
    ∀ chain : List (Device σ),
      chain.countP (fun d => d.owns p && d.deletable) ≤ 1 →
      (IODevice.remove chain p).countP (fun d => d.owns p && d.deletable) = 0 := by
  intro chain
  induction chain with
  | nil => intro _; rfl
  | cons d rest ih =>
    intro h
    rw [List.countP_cons] at h
    by_cases hd : (d.owns p && d.deletable) = true
    · simp only [hd, if_true] at h
      have hr : rest.countP (fun d => d.owns p && d.deletable) = 0 := by omega
      simpa [IODevice.remove, hd] using hr
    · have hd' : (d.owns p && d.deletable) = false := by simpa using hd
      simp only [hd', if_false] at h
      simp [IODevice.remove, hd', List.countP_cons, ih (by omega)]

/-- C1: for every VPIN p that no installed device owns, the dispatcher's
read(p) returns false, write(p, v) leaves the whole chain (hence every
device's state) unchanged for every v, and exists(p) returns false. -/
theorem c1_unowned_pin_defaults {σ : Type} (chain : List (Device σ)) (p : Nat) (v : Int)
    (h : ∀ d ∈ chain, d.owns p = false) :
    IODevice.read chain p = false
    ∧ IODevice.write chain p v = chain
    ∧ IODevice.existsPin chain p = false := by
  induction chain with
  | nil => exact ⟨rfl, rfl, rfl⟩
  | cons d rest ih =>
    have hd : d.owns p = false := h d (by simp)
    obtain ⟨h1, h2, h3⟩ := ih (fun e he => h e (by simp [he]))
    simp [IODevice.read, IODevice.write, IODevice.existsPin, hd, h1, h2, h3]

/-- Witness for C1 at a concrete chain and pin. -/
theorem c1_witness :
    IODevice.read [unitDevice 10 2 false] 20 = false
    ∧ IODevice.write [unitDevice 10 2 false] 20 3 = [unitDevice 10 2 false]
    ∧ IODevice.existsPin [unitDevice 10 2 false] 20 = false :=
  c1_unowned_pin_defaults [unitDevice 10 2 false] 20 3 (by decide)

/-- C2: for two devices A then B created in that order (so B is at the chain
head) whose ranges both contain p, write/read/configure all dispatch to B's
handlers; after removing B (B deletable), the same calls dispatch to A's
handlers. -/
theorem c2_overlap_most_recent_wins {σ : Type} (A B : Device σ) (rest : List (Device σ))
    (p : Nat) (v : Int) (ps : List Int)
    (hB : B.owns p = true) (hA : A.owns p = true) (hdel : B.deletable = true) :
    IODevice.write (IODevice.addDevice B (IODevice.addDevice A rest)) p v
        = { B with st := B.writeFn B.st p v } :: A :: rest
    ∧ IODevice.read (IODevice.addDevice B (IODevice.addDevice A rest)) p
        = B.readFn B.st p
    ∧ (IODevice.configure (IODevice.addDevice B (IODevice.addDevice A rest)) p ps).1
        = (B.configFn B.st p ps).1
    ∧ IODevice.remove (IODevice.addDevice B (IODevice.addDevice A rest)) p = A :: rest
    ∧ IODevice.write (A :: rest) p v = { A with st := A.writeFn A.st p v } :: rest
    ∧ IODevice.read (A :: rest) p = A.readFn A.st p
    ∧ (IODevice.configure (A :: rest) p ps).1 = (A.configFn A.st p ps).1 := by
  simp [IODevice.addDevice, IODevice.read, IODevice.write, IODevice.configure,
    IODevice.remove, hA, hB, hdel]

/-- Witness for C2 at two concrete overlapping devices. -/
theorem c2_witness :
    IODevice.read (IODevice.addDevice (natDevice 102 4 1 true)
        (IODevice.addDevice (natDevice 100 4 2 false) [])) 103
      = (natDevice 102 4 1 true).readFn (natDevice 102 4 1 true).st 103
    ∧ IODevice.remove (IODevice.addDevice (natDevice 102 4 1 true)
        (IODevice.addDevice (natDevice 100 4 2 false) [])) 103
      = [natDevice 100 4 2 false]
    ∧ IODevice.read [natDevice 100 4 2 false] 103
      = (natDevice 100 4 2 false).readFn (natDevice 100 4 2 false).st 103 := by
  obtain ⟨h1, h2, h3, h4, h5, h6, h7⟩ :=
    c2_overlap_most_recent_wins (natDevice 100 4 2 false) (natDevice 102 4 1 true) []
      103 7 [1] (by decide) (by decide) (by decide)
  exact ⟨h2, h4, h6⟩

/-- Counterexample to C3 as stated: chain [N, D] where the first owning
device N is not removable and a later device D also owns the pin and is
removable.  remove(5) does not leave the chain unchanged — it scans past N
and deletes D. -/
theorem c3_counterexample :
    (unitDevice 5 1 false).owns 5 = true
    ∧ (unitDevice 5 1 false).deletable = false
    ∧ IODevice.remove [unitDevice 5 1 false, unitDevice 5 1 true] 5 = [unitDevice 5 1 false]
    ∧ IODevice.remove [unitDevice 5 1 false, unitDevice 5 1 true] 5
        ≠ [unitDevice 5 1 false, unitDevice 5 1 true] := by
  refine ⟨by decide, rfl, rfl, fun h => ?_⟩
  have e : IODevice.remove [unitDevice 5 1 false, unitDevice 5 1 true] 5
      = [unitDevice 5 1 false] := rfl
  rw [e] at h
  simpa using congrArg List.length h

/-- C3 (amended): remove(p) unlinks and destroys the first device in chain
order that both owns p and reports itself removable; owning devices that are
not removable are skipped and the scan continues past them; when no owning
removable device exists the chain is unchanged. -/
theorem c3_remove_first_removable_owner {σ : Type} (chain pre post : List (Device σ))
    (d : Device σ) (p : Nat) :
    ((∀ e ∈ chain, (e.owns p && e.deletable) = false) → IODevice.remove chain p = chain)
    ∧ ((∀ e ∈ pre, (e.owns p && e.deletable) = false) → (d.owns p && d.deletable) = true →
        IODevice.remove (pre ++ d :: post) p = pre ++ post) := by
  constructor
  · induction chain with
    | nil => intro _; rfl
    | cons e rest ih =>
      intro h
      have he := h e (by simp)
      simp [IODevice.remove, he, ih (fun x hx => h x (by simp [hx]))]
  · induction pre with
    | nil =>
      intro _ hd
      simp [IODevice.remove, hd]
    | cons e rest ih =>
      intro hpre hd
      have he := hpre e (by simp)
      simp [IODevice.remove, he, ih (fun x hx => hpre x (by simp [hx])) hd]

/-- Witness for C3's amended statement at concrete chains. -/
theorem c3_witness :
    IODevice.remove [unitDevice 5 1 false] 5 = [unitDevice 5 1 false]
    ∧ IODevice.remove [unitDevice 5 1 false, unitDevice 5 1 true, unitDevice 0 3 true] 5
        = [unitDevice 5 1 false, unitDevice 0 3 true] := by
  obtain ⟨h1, h2⟩ :=
    c3_remove_first_removable_owner [unitDevice 5 1 false] [unitDevice 5 1 false]
      [unitDevice 0 3 true] (unitDevice 5 1 true) 5
  exact ⟨h1 (by decide), h2 (by decide) (by decide)⟩

/-- C10: Analogue device creation on VPIN p performs remove(p) first and only
then links the new device at the chain head; the new device owns p and is
removable; and — provided the chain held at most one removable owner of p,
the invariant the creation path maintains — exactly one removable device owns
p afterwards (no shadowed leftover). -/
theorem c10_create_replaces_removable (catchup vpin : Nat)
    (chain : List (Device AnalogueState))
    (h : chain.countP (fun d => d.owns vpin && d.deletable) ≤ 1) :
    Analogue.createInstance catchup chain vpin
        = Analogue.device catchup vpin :: IODevice.remove chain vpin
    ∧ (Analogue.device catchup vpin).owns vpin = true
    ∧ (Analogue.device catchup vpin).deletable = true
    ∧ (Analogue.createInstance catchup chain vpin).countP
        (fun d => d.owns vpin && d.deletable) = 1 := by
  have howns : (Analogue.device catchup vpin).owns vpin = true := by
    simp [Analogue.device, Device.owns]
  have hdel : (Analogue.device catchup vpin).deletable = true := rfl
  refine ⟨rfl, howns, hdel, ?_⟩
  have h0 := remove_countP_owner vpin chain h
  simp [Analogue.createInstance, IODevice.addDevice, List.countP_cons, h0, howns, hdel]

/-- Witness for C10: creating an Analogue on pin 7 over a chain already
holding a removable Analogue on pin 7 plus a permanent base device. -/
theorem c10_witness :
    Analogue.createInstance 5 [Analogue.device 5 7, baseAnalogueChainDevice] 7
        = Analogue.device 5 7
            :: IODevice.remove [Analogue.device 5 7, baseAnalogueChainDevice] 7
    ∧ (Analogue.createInstance 5 [Analogue.device 5 7, baseAnalogueChainDevice] 7).countP
        (fun d => d.owns 7 && d.deletable) = 1 := by
  obtain ⟨h1, h2, h3, h4⟩ :=
    c10_create_replaces_removable 5 7 [Analogue.device 5 7, baseAnalogueChainDevice]
      (by decide)
  exact ⟨h1, h4⟩

/-- Helper: PCF8574::_read performs a bus read transaction exactly when the
pin's output shadow bit was low (forcing the raise-then-read protocol) or the
module's freshness counter is 0. -/
theorem pcf_read_transact_eq (s : PCF8574State) (p : Nat) (bus : Nat × Nat) :
    (PCF8574.read s p bus).2.2
      = (decide (Nat.land (s.portOutputState ((p - s.firstID) / 8))
            (2 ^ ((p - s.firstID) % 8)) = 0)
         || decide (s.portCounter ((p - s.firstID) / 8) = 0)) := by
  by_cases hf : Nat.land (s.portOutputState ((p - s.firstID) / 8))
      (2 ^ ((p - s.firstID) % 8)) = 0
  · simp [PCF8574.read, hf]
  · by_cases hc : s.portCounter ((p - s.firstID) / 8) = 0
    · simp [PCF8574.read, hf, hc]
    · simp [PCF8574.read, hf, hc]

/-- Helper: the tick handler never changes the device's pin range or the
output shadows. -/
theorem pcf_loop_preserves (s : PCF8574State) (cur : Nat) :
    (PCF8574.loop s cur).firstID = s.firstID
    ∧ (PCF8574.loop s cur).portOutputState = s.portOutputState := by
  unfold PCF8574.loop
  split
  · split
    · exact ⟨rfl, rfl⟩
    · exact ⟨rfl, rfl⟩
  · exact ⟨rfl, rfl⟩

/-- Helper: the tick handler is the identity until strictly more than one
tick interval has elapsed. -/
theorem pcf_loop_noop (s : PCF8574State) (cur : Nat)
    (h : usub32 cur s.lastLoopEntry ≤ PCF8574.portTickTime) :
    PCF8574.loop s cur = s := by
  unfold PCF8574.loop
  rw [if_neg (by omega)]

/-- Helper: closed form of a module counter after one tick-handler call —
decremented by the number of elapsed whole intervals (clamped to 0) exactly
when the handler processes (elapsed strictly above one interval, flag up,
module in range), otherwise unchanged. -/
theorem pcf_loop_portCounter (s : PCF8574State) (cur m : Nat) :
    (PCF8574.loop s cur).portCounter m
      = if PCF8574.portTickTime < usub32 cur s.lastLoopEntry ∧ s.counterSet = true
           ∧ m < s.nModules
        then s.portCounter m - usub32 cur s.lastLoopEntry / PCF8574.portTickTime
        else s.portCounter m := by
  by_cases hgt : PCF8574.portTickTime < usub32 cur s.lastLoopEntry
  · by_cases hcs : s.counterSet = true
    · by_cases hm : m < s.nModules
      · simp [PCF8574.loop, hgt, hcs, hm]
        intro h
        omega
      · simp [PCF8574.loop, hgt, hcs, hm]
    · simp [PCF8574.loop, hgt, hcs]
  · simp [PCF8574.loop, hgt]

/-- C4: the expander cache/invalidation protocol of the PCF8574 driver.
For pins p, q of the same module m:
(1) immediately after a write to q (counter reset to 0), a read of p performs
a bus read transaction;
(2) while the module counter is nonzero, a read of a pin whose output shadow
bit is high performs no bus transaction and leaves the state unchanged (so
any number of such reads with no intervening write stay silent);
(3) a read that performed a transaction refreshes the counter to
minTicksBetweenReads and raises the flag;
(4) a tick of the loop handler within the freshness window (elapsed less than
two tick intervals after a refresh) leaves the counter nonzero, so reads stay
cached;
(5) once more than minTicksBetweenReads tick intervals elapse with no
intervening write, the counter hits 0 and the next read performs a fresh bus
transaction. -/
theorem c4_expander_cache_protocol (s : PCF8574State) (p q m cur : Nat)
    (bus bus2 : Nat × Nat) (v : Int)
    (hp : (p - s.firstID) / 8 = m) (hq : (q - s.firstID) / 8 = m) :
    ((PCF8574.read (PCF8574.write s q v) p bus).2.2 = true)
    ∧ (1 ≤ s.portCounter m →
        Nat.land (s.portOutputState m) (2 ^ ((p - s.firstID) % 8)) ≠ 0 →
        PCF8574.read s p bus
          = (s, decide (Nat.land (s.portInputState m) (2 ^ ((p - s.firstID) % 8)) ≠ 0),
              false))
    ∧ ((PCF8574.read s p bus).2.2 = true →
        (PCF8574.read s p bus).1.portCounter m = PCF8574.minTicksBetweenPortReads
        ∧ (PCF8574.read s p bus).1.counterSet = true)
    ∧ (s.portCounter m = PCF8574.minTicksBetweenPortReads →
        usub32 cur s.lastLoopEntry < 2 * PCF8574.portTickTime →
        1 ≤ (PCF8574.loop s cur).portCounter m)
    ∧ (s.portCounter m ≤ PCF8574.minTicksBetweenPortReads →
        s.counterSet = true → m < s.nModules →
        2 * PCF8574.portTickTime < usub32 cur s.lastLoopEntry →
        (PCF8574.read (PCF8574.loop s cur) p bus2).2.2 = true) := by
  have hT : PCF8574.portTickTime = 500 := rfl
  have hR : PCF8574.minTicksBetweenPortReads = 2 := rfl
  refine ⟨?_, ?_, ?_, ?_, ?_⟩
  · rw [pcf_read_transact_eq]
    simp [PCF8574.write, hp, hq, Function.update_same]
  · intro h1 h2
    have hc : ¬ s.portCounter m = 0 := by omega
    simp [PCF8574.read, hp, h2, hc]
  · intro ht
    by_cases hf : Nat.land (s.portOutputState m) (2 ^ ((p - s.firstID) % 8)) = 0
    · constructor <;> simp [PCF8574.read, hp, hf, Function.update_same]
    · by_cases hc : s.portCounter m = 0
      · constructor <;> simp [PCF8574.read, hp, hf, hc, Function.update_same]
      · rw [pcf_read_transact_eq, hp] at ht
        simp [hf, hc] at ht
  · intro h2 hlt
    rw [hR] at h2
    rw [hT] at hlt
    rw [pcf_loop_portCounter]
    split
    · rename_i hcond
      have he : usub32 cur s.lastLoopEntry / 500 ≤ 1 := by
        rw [hT] at hcond
        omega
      rw [h2, hT]
      omega
    · omega
  · intro hle hcs hm hgt2
    rw [hR] at hle
    rw [hT] at hgt2
    have hgt : PCF8574.portTickTime < usub32 cur s.lastLoopEntry := by
      rw [hT]
      omega
    rw [pcf_read_transact_eq, (pcf_loop_preserves s cur).1,
      (pcf_loop_preserves s cur).2, hp, pcf_loop_portCounter,
      if_pos (And.intro hgt (And.intro hcs hm))]
    have hc0 : s.portCounter m - usub32 cur s.lastLoopEntry / PCF8574.portTickTime = 0 := by
      rw [hT]
      omega
    simp [hc0]

/-- Witness for C4 at concrete states: a fresh-cache module read stays
silent, a write forces the next read to transact, a stale-cache read
refreshes the counter, a tick at 999 µs keeps the cache, and a tick at
1501 µs expires it so the next read transacts. -/
theorem c4_witness :
    (PCF8574.read (PCF8574.write pcfFresh 133 1) 132 (1, 170)).2.2 = true
    ∧ PCF8574.read pcfFresh 132 (1, 170) = (pcfFresh, true, false)
    ∧ (PCF8574.read pcfStale 132 (1, 170)).1.portCounter 0 = 2
    ∧ 1 ≤ (PCF8574.loop pcfFresh 999).portCounter 0
    ∧ (PCF8574.read (PCF8574.loop pcfFresh 1501) 132 (1, 170)).2.2 = true := by
  obtain ⟨h1, h2, h3, h4, h5⟩ :=
    c4_expander_cache_protocol pcfFresh 132 133 0 1501 (1, 170) (1, 170) 1 rfl rfl
  obtain ⟨g1, g2, g3, g4, g5⟩ :=
    c4_expander_cache_protocol pcfStale 132 133 0 999 (1, 170) (1, 170) 1 rfl rfl
  refine ⟨h1, ?_, ?_, ?_, h5 (by decide) rfl (by decide) (by decide)⟩
  · have := h2 (by decide) (by decide)
    simpa using this
  · exact (g3 (by decide)).1
  · exact (c4_expander_cache_protocol pcfFresh 132 133 0 999 (1, 170) (1, 170) 1
      rfl rfl).2.2.2.1 rfl (by decide)

/-- C5: on a failed bus read (0 of 1 requested bytes returned, residual
buffer byte 85) with a stale cache, the IO_PCF8574.cpp read stores the
residual buffer byte into the input shadow and returns its pin bit (true),
while the repository's other variant of the same driver
(src/unnamed/part_000) stores 0 and returns false as the claim requires. -/
theorem c5_failed_bus_read_shadow :
    (PCF8574.read pcfStale 132 (0, 85)).1.portInputState 0 = 85
    ∧ (PCF8574.read pcfStale 132 (0, 85)).2.1 = true
    ∧ (PCF8574v2.read pcfV2Stale 132 (0, 85)).1.portInputState 0 = 0
    ∧ (PCF8574v2.read pcfV2Stale 132 (0, 85)).2.1 = false := by
  exact ⟨rfl, rfl, rfl, rfl⟩

/-- Counterexample to C6 as stated: with exactly one whole tick interval
elapsed (500 µs, so "one or more whole intervals have elapsed" and the
counter is nonzero), the loop handler decrements nothing — the trigger is
strictly greater-than, not greater-or-equal. -/
theorem c6_counterexample :
    usub32 500 pcfFresh.lastLoopEntry / PCF8574.portTickTime = 1
    ∧ 0 < pcfFresh.portCounter 0
    ∧ PCF8574.loop pcfFresh 500 = pcfFresh
    ∧ (PCF8574.loop pcfFresh 500).portCounter 0 ≠ pcfFresh.portCounter 0 - 1 := by
  exact ⟨by decide, by decide, rfl, by decide⟩

/-- C6 (amended): the tick handler decays counters only when strictly more
than one tick interval has elapsed since the last processed tick (at exactly
one full interval nothing happens); when it processes with the
any-counter-nonzero flag up, every module counter is decremented by the
number of elapsed whole intervals, clamped at 0 (Nat subtraction — never
negative); a counter at 0 stays 0.  For a counter equal to 2: elapsed ≤ T
leaves it at 2, T < elapsed < 2T gives 1, elapsed ≥ 2T gives 0. -/
theorem c6_tick_decay (s : PCF8574State) (cur m : Nat) :
    (usub32 cur s.lastLoopEntry ≤ PCF8574.portTickTime → PCF8574.loop s cur = s)
    ∧ (PCF8574.portTickTime < usub32 cur s.lastLoopEntry → s.counterSet = true →
        m < s.nModules →
        (PCF8574.loop s cur).portCounter m
          = s.portCounter m - usub32 cur s.lastLoopEntry / PCF8574.portTickTime)
    ∧ (s.portCounter m = 0 → (PCF8574.loop s cur).portCounter m = 0)
    ∧ (s.portCounter m = 2 → s.counterSet = true → m < s.nModules →
        ((PCF8574.portTickTime < usub32 cur s.lastLoopEntry →
            usub32 cur s.lastLoopEntry < 2 * PCF8574.portTickTime →
            (PCF8574.loop s cur).portCounter m = 1)
         ∧ (2 * PCF8574.portTickTime ≤ usub32 cur s.lastLoopEntry →
            (PCF8574.loop s cur).portCounter m = 0))) := by
  have hT : PCF8574.portTickTime = 500 := rfl
  refine ⟨pcf_loop_noop s cur, ?_, ?_, ?_⟩
  · intro hgt hcs hm
    rw [pcf_loop_portCounter, if_pos (And.intro hgt (And.intro hcs hm))]
  · intro h0
    rw [pcf_loop_portCounter]
    split <;> simp [h0]
  · intro h2 hcs hm
    constructor
    · intro hgt hlt
      rw [pcf_loop_portCounter, if_pos (And.intro hgt (And.intro hcs hm)), h2]
      rw [hT] at hgt hlt ⊢
      omega
    · intro hge
      rw [hT] at hge
      have hgt : PCF8574.portTickTime < usub32 cur s.lastLoopEntry := by
        rw [hT]
        omega
      rw [pcf_loop_portCounter, if_pos (And.intro hgt (And.intro hcs hm)), h2, hT]
      omega

/-- Witness for C6's amended statement at concrete states and times. -/
theorem c6_witness :
    PCF8574.loop pcfFresh 400 = pcfFresh
    ∧ (PCF8574.loop pcfFresh 700).portCounter 0 = 1
    ∧ (PCF8574.loop pcfFresh 1700).portCounter 0 = 0
    ∧ (PCF8574.loop pcfStale 700).portCounter 0 = 0 := by
  refine ⟨(c6_tick_decay pcfFresh 400 0).1 (by decide), ?_, ?_, ?_⟩
  · exact ((c6_tick_decay pcfFresh 700 0).2.2.2 rfl rfl (by decide)).1 (by decide) (by decide)
  · exact ((c6_tick_decay pcfFresh 1700 0).2.2.2 rfl rfl (by decide)).2 (by decide)
  · exact (c6_tick_decay pcfStale 700 0).2.2.1 rfl

/-- C7: on the first write after creation with unknown state, Analogue::_write
computes the jump target as `_state ? _activePosition : _inactivePosition`
while `_state` is still -1 (truthy), so writing 0 lands on activePosition
(300) instead of the inactivePosition (100) the claim requires; the logical
state is recorded as 0 as claimed. -/
theorem c7_first_write_ignores_value :
    (Analogue.write 5 analogueUnknown 0).1.currentPosition = analogueUnknown.activePosition
    ∧ analogueUnknown.activePosition = 300
    ∧ analogueUnknown.inactivePosition = 100
    ∧ (Analogue.write 5 analogueUnknown 0).1.state = 0
    ∧ (Analogue.write 5 analogueUnknown 0).1.currentPosition
        ≠ analogueUnknown.inactivePosition := by
  exact ⟨rfl, rfl, rfl, rfl, by decide⟩

/-- C9: MCP23017::createInstance clamps the stored pin count to 128 but
derives the stored module count from the unclamped request: asking for 200
pins stores nPins = 128 yet nModules = 13, exceeding the compile-time
maximum of 8 modules that sizes every per-module array (so _begin's
initialisation loop indexes past the arrays).  The PCF8574 driver computes
its module count from the clamped pin count and stays in bounds. -/
theorem c9_module_count_not_clamped :
    (MCP23017.createInstance 164 200 36).nPins = 128
    ∧ (MCP23017.createInstance 164 200 36).nModules = 13
    ∧ ¬ ((MCP23017.createInstance 164 200 36).nModules ≤ MCP23017.maxModules)
    ∧ (PCF8574.createInstance 132 200 32).nPins = 64
    ∧ (PCF8574.createInstance 132 200 32).nModules = 8
    ∧ (PCF8574.createInstance 132 200 32).nModules ≤ PCF8574.maxModules := by
  exact ⟨rfl, rfl, by decide, rfl, rfl, by decide⟩

/-- Helper: one animation tick of a Fast (10-step) transition still in its
stepping phase advances the step counter and writes the interpolated
position downstream. -/
theorem an_step_fast (c : Nat) (s : AnalogueState)
    (h1 : s.profile = ProfileType.Fast) (hN : s.numSteps = 10)
    (hj : s.stepNumber < 10) :
    Analogue.updatePosition c s
      = ({ s with
            stepNumber := s.stepNumber + 1
            currentPosition := fastPos s.fromPosition s.toPosition (s.stepNumber + 1) },
         [fastPos s.fromPosition s.toPosition (s.stepNumber + 1)]) := by
  have hg : ¬ (10 + c < s.stepNumber) := by omega
  simp [Analogue.updatePosition, h1, hN, hg, hj, fastPos]

/-- Helper: running n ticks of a Fast transition whose current position is
the interpolation at its step counter, with n steps still to go, produces
the next n interpolated positions in order. -/
theorem an_run_steps (c : Nat) :
    ∀ (n : Nat) (s : AnalogueState),
      s.profile = ProfileType.Fast → s.numSteps = 10 →
      s.currentPosition = fastPos s.fromPosition s.toPosition s.stepNumber →
      s.stepNumber + n ≤ 10 →
      Analogue.run c s n
        = ({ s with
              stepNumber := s.stepNumber + n
              currentPosition := fastPos s.fromPosition s.toPosition (s.stepNumber + n) },
           (List.range n).map
             (fun i => fastPos s.fromPosition s.toPosition (s.stepNumber + 1 + i))) := by
  intro n
  induction n with
  | zero =>
    intro s h1 hN hcur hle
    simp [Analogue.run, hcur.symm]
  | succ n ih =>
    intro s h1 hN hcur hle
    have hstep := an_step_fast c s h1 hN (by omega)
    have ihs := ih ({ s with
        stepNumber := s.stepNumber + 1
        currentPosition := fastPos s.fromPosition s.toPosition (s.stepNumber + 1) })
      (by simpa using h1) (by simpa using hN) (by simp) (by simp; omega)
    simp only [Analogue.run, hstep, ihs]
    simp
    have harith : s.stepNumber + 1 + n = s.stepNumber + (n + 1) := by omega
    refine ⟨⟨by rw [harith], harith⟩, ?_⟩
    rw [List.range_succ_eq_map, List.map_cons, List.map_map]
    simp only [List.cons.injEq]
    refine ⟨by simp, ?_⟩
    apply List.map_congr_left
    intro i _
    simp only [Function.comp_apply]
    rw [show s.stepNumber + 1 + 1 + i = s.stepNumber + 1 + (i + 1) from by omega]

/-- Helper: step 10 of a Fast animation lands exactly on the target
position (map(numSteps, 0, numSteps, from, to) = to). -/
theorem fastPos_ten (f t : Int) : fastPos f t 10 = t := by
  simp [fastPos, arduinoMap]

/-- Helper: catch-up ticks (stepping phase over, step counter still at or
below numSteps + catchupSteps) only advance the step counter and write
nothing downstream. -/
theorem an_run_catchup (c : Nat) :
    ∀ (r : Nat) (s : AnalogueState),
      s.profile = ProfileType.Fast → s.numSteps = 10 → 10 ≤ s.stepNumber →
      s.stepNumber + r ≤ 10 + c →
      Analogue.run c s r = ({ s with stepNumber := s.stepNumber + r }, []) := by
  intro r
  induction r with
  | zero =>
    intro s h1 hN hge hle
    simp [Analogue.run]
  | succ n ih =>
    intro s h1 hN hge hle
    have hstep : Analogue.updatePosition c s = ({ s with stepNumber := s.stepNumber + 1 }, []) := by
      have hg : ¬ (s.stepNumber > s.numSteps + c) := by omega
      have hlt : ¬ (s.stepNumber < s.numSteps) := by omega
      have hcat : s.stepNumber < s.numSteps + c := by omega
      simp [Analogue.updatePosition, h1, if_neg hg, hlt, hcat]
    have ihs := ih ({ s with stepNumber := s.stepNumber + 1 })
      (by simpa using h1) (by simpa using hN) (by simp; omega) (by simp; omega)
    simp only [Analogue.run, hstep, ihs]
    simp
    omega

/-- Helper: the tick right after the catch-up phase (step counter equal to
numSteps + catchupSteps) of a Fast animation whose position is not a PWM
boundary writes the single PWM-off value 0 downstream. -/
theorem an_step_off (c : Nat) (s : AnalogueState)
    (h1 : s.profile = ProfileType.Fast) (hsn : s.stepNumber = s.numSteps + c)
    (hpos : s.currentPosition ≠ 4095) (hpos0 : s.currentPosition ≠ 0) :
    Analogue.updatePosition c s = ({ s with stepNumber := s.stepNumber + 1 }, [0]) := by
  have hg : ¬ (s.stepNumber > s.numSteps + c) := by omega
  have hlt : ¬ (s.stepNumber < s.numSteps) := by omega
  have hcat : ¬ (s.stepNumber < s.numSteps + c) := by omega
  simp [Analogue.updatePosition, h1, if_neg hg, hlt, hcat, hsn, hpos, hpos0]

/-- Helper: once the step counter has passed numSteps + catchupSteps the
animation is idle — any number of further ticks changes nothing and writes
nothing. -/
theorem an_run_idle (c : Nat) :
    ∀ (k : Nat) (s : AnalogueState),
      s.numSteps + c < s.stepNumber →
      Analogue.run c s k = (s, []) := by
  intro k
  induction k with
  | zero => intro s h; rfl
  | succ n ih =>
    intro s h
    have hstep : Analogue.updatePosition c s = (s, []) := by
      unfold Analogue.updatePosition
      rw [if_pos h]
    simp [Analogue.run, hstep, ih s h]

/-- Helper: ticks compose — running m + n ticks is running m ticks and then
n more, with the downstream writes concatenated. -/
theorem an_run_add (c : Nat) :
    ∀ (m n : Nat) (s : AnalogueState),
      Analogue.run c s (m + n)
        = ((Analogue.run c (Analogue.run c s m).1 n).1,
           (Analogue.run c s m).2 ++ (Analogue.run c (Analogue.run c s m).1 n).2) := by
  intro m
  induction m with
  | zero =>
    intro n s
    simp [Analogue.run]
  | succ m ih =>
    intro n s
    rw [Nat.succ_add]
    simp only [Analogue.run]
    rw [ih n (Analogue.updatePosition c s).1]
    simp

/-- Helper: with a span of at least 10, the truncating interpolation
numerator gains strictly more than one quotient unit per step. -/
theorem tdiv_strict_step (d : Int) (hd : 10 ≤ d) (k : Nat) :
    Int.tdiv ((k : Int) * d) 10 + 1 ≤ Int.tdiv (((k : Int) + 1) * d) 10 := by
  have h0 : (0 : Int) ≤ (k : Int) := Int.natCast_nonneg k
  have hnum1 : (0 : Int) ≤ (k : Int) * d := mul_nonneg h0 (by omega)
  have hnum2 : (0 : Int) ≤ ((k : Int) + 1) * d := mul_nonneg (by omega) (by omega)
  rw [Int.tdiv_eq_ediv hnum1 (by norm_num), Int.tdiv_eq_ediv hnum2 (by norm_num)]
  have key : ((k : Int) * d + 1 * 10) / 10 ≤ (((k : Int) + 1) * d) / 10 := by
    apply Int.ediv_le_ediv (by norm_num)
    have hexp : ((k : Int) + 1) * d = (k : Int) * d + d := by ring
    rw [hexp]
    omega
  rw [Int.add_mul_ediv_right _ _ (by norm_num : (10 : Int) ≠ 0)] at key
  omega

/-- Helper: Fast-profile interpolated positions are strictly increasing in
the step index when the target is at least 10 above the start. -/
theorem fastPos_lt_succ (f t : Int) (hgap : f + 10 ≤ t) (k : Nat) :
    fastPos f t k < fastPos f t (k + 1) := by
  simp only [fastPos, arduinoMap, sub_zero]
  push_cast
  have h := tdiv_strict_step (t - f) (by omega) k
  omega

/-- Helper: Fast-profile interpolated positions are strictly decreasing in
the step index when the target is at least 10 below the start. -/
theorem fastPos_gt_succ (f t : Int) (hgap : t + 10 ≤ f) (k : Nat) :
    fastPos f t (k + 1) < fastPos f t k := by
  simp only [fastPos, arduinoMap, sub_zero]
  push_cast
  rw [show ((k : Int) + 1) * (t - f) = -(((k : Int) + 1) * (f - t)) from by ring,
    show (k : Int) * (t - f) = -((k : Int) * (f - t)) from by ring,
    Int.neg_tdiv, Int.neg_tdiv]
  have h := tdiv_strict_step (f - t) (by omega) k
  omega

/-- Helper: the ten Fast-profile position writes form a strictly monotonic
chain (increasing upward, decreasing downward) whenever the two extremes are
at least 10 apart. -/
theorem fastPos_chain_strict (f t : Int) :
    (f + 10 ≤ t →
      List.Chain' (fun a b => a < b)
        ((List.range 10).map (fun i => fastPos f t (i + 1))))
    ∧ (t + 10 ≤ f →
      List.Chain' (fun a b => a > b)
        ((List.range 10).map (fun i => fastPos f t (i + 1)))) := by
  constructor
  · intro h
    rw [List.chain'_map, show (10 : Nat) = Nat.succ 9 from rfl, List.chain'_range_succ]
    intro m _
    exact fastPos_lt_succ f t h (m + 1)
  · intro h
    rw [List.chain'_map, show (10 : Nat) = Nat.succ 9 from rfl, List.chain'_range_succ]
    intro m _
    exact fastPos_gt_succ f t h (m + 1)

/-- Helper: writing true to a settled-inactive Fast device starts a 10-step
transition from the current position to the active position and performs the
first step (and its downstream write) synchronously. -/
theorem an_write_fast (c : Nat) (s : AnalogueState)
    (h1 : s.profile = ProfileType.Fast) (hst : s.state = 0) :
    Analogue.write c s 1
      = ({ s with
            profile := ProfileType.Fast
            numSteps := 10
            state := 1
            stepNumber := 1
            fromPosition := s.currentPosition
            toPosition := s.activePosition
            currentPosition := fastPos s.currentPosition s.activePosition 1 },
         [fastPos s.currentPosition s.activePosition 1]) := by
  have hstep := an_step_fast c ({ s with
      profile := ProfileType.Fast
      numSteps := 10
      state := 1
      stepNumber := 0
      fromPosition := s.currentPosition
      toPosition := s.activePosition })
    rfl rfl (by norm_num)
  simp only [Analogue.write, hst, h1]
  norm_num
  rw [hstep]

/-- Counterexample to C8 as stated: a Fast device whose extremes are only 5
apart (inactive 0, active 5).  Writing true still produces exactly 10
position writes ending at 5 and a final PWM-off write, but integer division
repeats values (0,1,1,2,2,3,3,4,4,5), so the 10 position writes are not
strictly monotonic. -/
theorem c8_counterexample :
    (Analogue.write 2 analogueSettledSmall 1).2
        ++ (Analogue.run 2 (Analogue.write 2 analogueSettledSmall 1).1 (9 + 2 + 1 + 1)).2
      = [0, 1, 1, 2, 2, 3, 3, 4, 4, 5, 0]
    ∧ ¬ List.Chain' (fun a b => a < b) [(0 : Int), 1, 1, 2, 2, 3, 3, 4, 4, 5] := by
  exact ⟨by decide, by norm_num [List.chain'_cons]⟩

/-- C8 (amended): for a Fast-profile device settled at the inactive extreme,
writing true produces exactly 10 downstream position writes — the successive
truncating interpolations from the inactive to the active position, the last
landing exactly on the active position, strictly monotonic in the direction
of travel whenever the extremes are at least stepCount (10) apart — then the
catch-up ticks write nothing, then exactly one PWM-off write of 0 follows
(the active position being neither 0 nor 4095), after which any number of
further ticks writes nothing. -/
theorem c8_fast_profile_trace (c k : Nat) (s : AnalogueState)
    (h1 : s.profile = ProfileType.Fast) (hst : s.state = 0)
    (hcur : s.currentPosition = s.inactivePosition)
    (ha0 : s.activePosition ≠ 0) (ha4 : s.activePosition ≠ 4095) :
    (Analogue.write c s 1).2
        ++ (Analogue.run c (Analogue.write c s 1).1 (9 + c + 1 + k)).2
      = ((List.range 10).map (fun i => fastPos s.inactivePosition s.activePosition (i + 1)))
        ++ [0]
    ∧ fastPos s.inactivePosition s.activePosition 10 = s.activePosition
    ∧ (s.inactivePosition + 10 ≤ s.activePosition →
        List.Chain' (fun a b => a < b)
          ((List.range 10).map (fun i => fastPos s.inactivePosition s.activePosition (i + 1))))
    ∧ (s.activePosition + 10 ≤ s.inactivePosition →
        List.Chain' (fun a b => a > b)
          ((List.range 10).map (fun i => fastPos s.inactivePosition s.activePosition (i + 1)))) := by
  refine ⟨?_, fastPos_ten _ _, (fastPos_chain_strict _ _).1, (fastPos_chain_strict _ _).2⟩
  have hw := an_write_fast c s h1 hst
  rw [hcur] at hw
  have e1 : Analogue.run c
      ({ s with
          profile := ProfileType.Fast
          numSteps := 10
          state := 1
          stepNumber := 1
          fromPosition := s.inactivePosition
          toPosition := s.activePosition
          currentPosition := fastPos s.inactivePosition s.activePosition 1 }) 9
      = ({ s with
          profile := ProfileType.Fast
          numSteps := 10
          state := 1
          stepNumber := 10
          fromPosition := s.inactivePosition
          toPosition := s.activePosition
          currentPosition := fastPos s.inactivePosition s.activePosition 10 },
        (List.range 9).map (fun i => fastPos s.inactivePosition s.activePosition (2 + i))) := by
    rw [an_run_steps c 9 _ rfl rfl rfl (by norm_num)]
  rw [fastPos_ten] at e1
  have e2 : Analogue.run c
      ({ s with
          profile := ProfileType.Fast
          numSteps := 10
          state := 1
          stepNumber := 10
          fromPosition := s.inactivePosition
          toPosition := s.activePosition
          currentPosition := s.activePosition }) c
      = ({ s with
          profile := ProfileType.Fast
          numSteps := 10
          state := 1
          stepNumber := 10 + c
          fromPosition := s.inactivePosition
          toPosition := s.activePosition
          currentPosition := s.activePosition }, []) := by
    rw [an_run_catchup c c _ rfl rfl (by norm_num) (by norm_num)]
  have e3 : Analogue.run c
      ({ s with
          profile := ProfileType.Fast
          numSteps := 10
          state := 1
          stepNumber := 10 + c
          fromPosition := s.inactivePosition
          toPosition := s.activePosition
          currentPosition := s.activePosition }) 1
      = ({ s with
          profile := ProfileType.Fast
          numSteps := 10
          state := 1
          stepNumber := 10 + c + 1
          fromPosition := s.inactivePosition
          toPosition := s.activePosition
          currentPosition := s.activePosition }, [0]) := by
    have hoff := an_step_off c ({ s with
        profile := ProfileType.Fast
        numSteps := 10
        state := 1
        stepNumber := 10 + c
        fromPosition := s.inactivePosition
        toPosition := s.activePosition
        currentPosition := s.activePosition }) rfl rfl ha4 ha0
    simp only [Analogue.run, hoff]
    simp
  have e4 : Analogue.run c
      ({ s with
          profile := ProfileType.Fast
          numSteps := 10
          state := 1
          stepNumber := 10 + c + 1
          fromPosition := s.inactivePosition
          toPosition := s.activePosition
          currentPosition := s.activePosition }) k
      = ({ s with
          profile := ProfileType.Fast
          numSteps := 10
          state := 1
          stepNumber := 10 + c + 1
          fromPosition := s.inactivePosition
          toPosition := s.activePosition
          currentPosition := s.activePosition }, []) := by
    exact an_run_idle c k _ (by norm_num)
  rw [hw]
  rw [show 9 + c + 1 + k = 9 + (c + (1 + k)) from by omega]
  rw [an_run_add c 9 (c + (1 + k)), e1]
  dsimp only
  rw [an_run_add c c (1 + k), e2]
  dsimp only
  rw [an_run_add c 1 k, e3]
  dsimp only
  rw [e4]
  have hsplit : (List.range 10).map
        (fun i => fastPos s.inactivePosition s.activePosition (i + 1))
      = fastPos s.inactivePosition s.activePosition 1
        :: (List.range 9).map (fun i => fastPos s.inactivePosition s.activePosition (2 + i)) := by
    rw [show (10 : Nat) = 9 + 1 from rfl, List.range_succ_eq_map, List.map_cons, List.map_map]
    simp
    intro i _
    congr 1
    omega
  rw [hsplit]
  simp

/-- Witness for C8's amended statement: the wide settled device (0 to 2047,
Fast profile) with catchupSteps 5 and 2 extra idle ticks. -/
theorem c8_witness :
    (Analogue.write 5 analogueSettledWide 1).2
        ++ (Analogue.run 5 (Analogue.write 5 analogueSettledWide 1).1 (9 + 5 + 1 + 2)).2
      = ((List.range 10).map (fun i =>
            fastPos analogueSettledWide.inactivePosition
              analogueSettledWide.activePosition (i + 1)))
        ++ [0]
    ∧ List.Chain' (fun a b => a < b)
        ((List.range 10).map (fun i =>
            fastPos analogueSettledWide.inactivePosition
              analogueSettledWide.activePosition (i + 1))) := by
  obtain ⟨t1, t2, t3, t4⟩ :=
    c8_fast_profile_trace 5 2 analogueSettledWide rfl rfl rfl (by decide) (by decide)
  exact ⟨t1, t3 (by decide)⟩

end HAL
